import Mathlib

/-!
Shallow embedding of the GPU device layer of `chizumu-graphics`
(`src/chizumu-graphics/src/gpu/{device,command,resource}.rs`).

Vulkan handles are modelled as natural numbers; calls into the Vulkan
driver that can fail or return data are modelled by explicit parameters
(acquire results, present results) supplied to the embedded functions.
Rust `u64`/`u32` counters are modelled as `Nat` (they only ever grow by
one per frame, far from overflow, and the source never wraps them).
A Rust panic (`unwrap` on `None`, `Vec` index out of bounds) is a
distinguished outcome, kept separate from an `Err` return.
-/

namespace Chizumu

/-- `MAX_FRAMES` from `device.rs`. -/
def MAX_FRAMES : Nat := 2

/-- Raw value of `vk::DescriptorType::UNIFORM_BUFFER`. -/
def UNIFORM_BUFFER : Nat := 6

/-- Raw value of `vk::DescriptorType::STORAGE_BUFFER`. -/
def STORAGE_BUFFER : Nat := 7

/-- Bit value of `vk::BufferUsageFlags::TRANSFER_SRC`. -/
def TRANSFER_SRC : Nat := 1

/-- Bit value of `vk::BufferUsageFlags::TRANSFER_DST`. -/
def TRANSFER_DST : Nat := 2

/-- `FrameCounters` from `device.rs`. -/
structure FrameCounters where
  current : Nat
  previous : Nat
  absolute : Nat
deriving Repr, DecidableEq

/-- A `gpu_allocator` `Allocation`: an id plus the CPU-mapped pointer,
which is `none` for memory that is not host-visible. -/
structure Allocation where
  id : Nat
  mapped_ptr : Option Nat
deriving Repr, DecidableEq

/-- `PendingDestructionBuffer` from `resource.rs`: the raw handle and the
allocation of a buffer whose destruction has been requested. -/
structure PendingDestructionBuffer where
  raw : Nat
  allocation : Allocation
deriving Repr, DecidableEq

/-- `CommandBufferManager` from `command.rs`.  `num_command_pools` mirrors
`command_pools.len()`; the preallocated `command_buffers` vector has
`num_command_pools * num_command_buffers_per_pool` entries and its elements
are identified by their index. -/
structure CommandBufferManager where
  num_command_pools : Nat
  num_command_buffers_per_pool : Nat
  num_used_command_buffers_per_pool : List Nat
deriving Repr, DecidableEq

/-- `CommandBufferManager::new`: all per-pool usage counters start at 0. -/
def CommandBufferManager.new (num_command_pools num_command_buffers_per_pool : Nat) :
    CommandBufferManager where
  num_command_pools := num_command_pools
  num_command_buffers_per_pool := num_command_buffers_per_pool
  num_used_command_buffers_per_pool := List.replicate num_command_pools 0

/-- `CommandBufferManager::reset_command_pools`: zero the usage counter of
every named pool (the `vkResetCommandPool` call itself has no effect on the
modelled state). -/
def CommandBufferManager.reset_command_pools (m : CommandBufferManager)
    (pool_indices : List Nat) : CommandBufferManager :=
  { m with num_used_command_buffers_per_pool :=
      pool_indices.foldl (fun used i => used.set i 0) m.num_used_command_buffers_per_pool }

/-- Outcome of `CommandBufferManager::get_command_buffer_at_pool`:
a command buffer (identified by its index into the preallocated
`command_buffers` vector), an `anyhow` error, or a Rust panic
(out-of-bounds `Vec` index). -/
inductive AcquireBufferResult
  | ok (buffer_index : Nat)
  | error
  | crash
deriving Repr, DecidableEq

/-- `CommandBufferManager::get_command_buffer_at_pool`, translated
line by line: read the pool's usage counter, return an error when
`num_used_buffers > num_command_buffers_per_pool`, otherwise increment the
counter and index `command_buffers` at
`pool_index * num_command_buffers_per_pool + num_used_buffers`
(a panic when that index is outside the preallocated vector). -/
def CommandBufferManager.get_command_buffer_at_pool (m : CommandBufferManager)
    (pool_index : Nat) : CommandBufferManager × AcquireBufferResult :=
  match m.num_used_command_buffers_per_pool.get? pool_index with
  | none => (m, .crash)
  | some num_used_buffers =>
    if num_used_buffers > m.num_command_buffers_per_pool then
      (m, .error)
    else
      let m' := { m with num_used_command_buffers_per_pool :=
          m.num_used_command_buffers_per_pool.set pool_index (num_used_buffers + 1) }
      let index := pool_index * m.num_command_buffers_per_pool + num_used_buffers
      if index < m.num_command_pools * m.num_command_buffers_per_pool then
        (m', .ok index)
      else
        (m', .crash)

/-- The pool a preallocated command buffer belongs to: buffer `i` of the flat
`command_buffers` vector was allocated from pool
`i / num_command_buffers_per_pool`. -/
def CommandBufferManager.bufferPool (m : CommandBufferManager) (i : Nat) : Nat :=
  i / m.num_command_buffers_per_pool

/-- The mutable state of `Device` that the embedded operations touch:
frame counters, the command-buffer manager and the resource hub's
pending-destruction queue.  `destroyed_buffers` is a ghost log recording
every `destroy_buffer` call (physical release), in order. -/
structure DeviceState where
  frame_counters : FrameCounters
  command_buffer_manager : CommandBufferManager
  pending_destruction_buffers : List PendingDestructionBuffer
  destroyed_buffers : List PendingDestructionBuffer
deriving Repr, DecidableEq

namespace Device

/-- `Device::new`: counters start at 0, the manager is created with
`MAX_FRAMES` pools and 1 buffer per pool, the pending queue is empty. -/
def new : DeviceState where
  frame_counters := { current := 0, previous := 0, absolute := 0 }
  command_buffer_manager := CommandBufferManager.new MAX_FRAMES 1
  pending_destruction_buffers := []
  destroyed_buffers := []

/-- `Device::frame_counters_advance`. -/
def frame_counters_advance (s : DeviceState) : DeviceState :=
  { s with frame_counters := {
      previous := s.frame_counters.current
      current := (s.frame_counters.current + 1) % MAX_FRAMES
      absolute := s.frame_counters.absolute + 1 } }

/-- `Device::frame_semaphore_graphics_wait_value`. -/
def frame_semaphore_graphics_wait_value (c : FrameCounters) : Nat :=
  c.absolute - (MAX_FRAMES - 1)

/-- Result of `Swapchain::acquire_next_image`: `ok suboptimal` mirrors the
`(index, suboptimal)` pair (the image index is irrelevant to the claims),
`err` any `VkResult` failure. -/
inductive AcquireImageResult
  | ok (suboptimal : Bool)
  | err
deriving Repr, DecidableEq

/-- Environment for one `frame_begin` call: the driver-determined outcomes of
the first acquisition, of `Swapchain::recreate`, and of the retried
acquisition (each consulted only if the control flow reaches it). -/
structure FrameBeginEnv where
  acquire1 : AcquireImageResult
  recreate_ok : Bool
  acquire2 : AcquireImageResult
deriving Repr, DecidableEq

/-- Ghost trace of one `frame_begin` call: the timeline value waited on (if a
wait was performed), and how many `recreate` and `acquire_next_image` calls
were issued. -/
structure FrameBeginTrace where
  waited : Option Nat
  recreations : Nat
  acquisitions : Nat
deriving Repr, DecidableEq

/-- `Ok`/`Err` outcome of a fallible `Device` method. -/
inductive CallResult
  | ok
  | error
deriving Repr, DecidableEq

/-- `Device::frame_begin`: wait on the timeline semaphore when
`absolute >= MAX_FRAMES`, reset the current slot's command pool, then acquire
a swapchain image; on a suboptimal acquire (`Ok(_, true)`) or any acquire
error, recreate the swapchain once and retry the acquisition once,
propagating a failure of the recreation or of the retried acquisition. -/
def frame_begin (env : FrameBeginEnv) (s : DeviceState) :
    DeviceState × CallResult × FrameBeginTrace :=
  let waited :=
    if s.frame_counters.absolute ≥ MAX_FRAMES then
      some (frame_semaphore_graphics_wait_value s.frame_counters)
    else none
  let s := { s with command_buffer_manager :=
      s.command_buffer_manager.reset_command_pools [s.frame_counters.current] }
  match env.acquire1 with
  | .ok false => (s, .ok, ⟨waited, 0, 1⟩)
  | .ok true =>
    if env.recreate_ok then
      match env.acquire2 with
      | .ok _ => (s, .ok, ⟨waited, 1, 2⟩)
      | .err => (s, .error, ⟨waited, 1, 2⟩)
    else (s, .error, ⟨waited, 1, 1⟩)
  | .err =>
    if env.recreate_ok then
      match env.acquire2 with
      | .ok _ => (s, .ok, ⟨waited, 1, 2⟩)
      | .err => (s, .error, ⟨waited, 1, 2⟩)
    else (s, .error, ⟨waited, 1, 1⟩)

/-- `Device::cleanup_resources`: drain the whole pending-destruction queue,
calling `destroy_buffer` on each entry (logged in `destroyed_buffers`). -/
def cleanup_resources (s : DeviceState) : DeviceState :=
  { s with
    pending_destruction_buffers := []
    destroyed_buffers := s.destroyed_buffers ++ s.pending_destruction_buffers }

/-- `Device::swapchain_present`.  `present_ok` is the outcome of
`Swapchain::queue_present`; on a present failure the code calls
`device_wait_idle` (outcome `wait_idle_ok`) and propagates its failure with
`?` before touching any state.  Otherwise the frame counters advance and the
pending-destruction queue is drained. -/
def swapchain_present (present_ok wait_idle_ok : Bool) (s : DeviceState) :
    DeviceState × CallResult :=
  if present_ok then
    (cleanup_resources (frame_counters_advance s), .ok)
  else if wait_idle_ok then
    (cleanup_resources (frame_counters_advance s), .ok)
  else
    (s, .error)

/-- The semaphore payload of `Device::queue_submit_commands_graphics`: which
`semaphores_render_complete` entry is signalled and the timeline value
signalled on `semaphore_graphics_frame`. -/
structure SubmitInfo where
  render_complete_index : Nat
  timeline_signal_value : Nat
deriving Repr, DecidableEq

/-- `Device::queue_submit_commands_graphics`: reads the frame counters to
build the signal descriptors (current slot's binary semaphore, timeline value
`absolute + 1`) and submits; it mutates no `Device` state. -/
def queue_submit_commands_graphics (s : DeviceState) : DeviceState × SubmitInfo :=
  (s, { render_complete_index := s.frame_counters.current
        timeline_signal_value := s.frame_counters.absolute + 1 })

end Device

/-- `gpu_allocator::MemoryLocation`. -/
inductive MemoryLocation
  | unknown
  | gpuOnly
  | cpuToGpu
  | gpuToCpu
deriving Repr, DecidableEq

/-- `BufferDescriptor` from `resource.rs`.  Usage flags are a `Nat` bitmask
mirroring `vk::BufferUsageFlags`. -/
structure BufferDescriptor where
  size : Nat
  usage_flags : Nat
  memory_location : MemoryLocation
deriving Repr, DecidableEq

/-- `Buffer` from `resource.rs`: raw handle, size, the allocation (an
`Option` that is `Some` from creation until `drop` takes it), and the
usage flags the underlying `vkBuffer` was created with. -/
structure Buffer where
  raw : Nat
  size : Nat
  usage_flags : Nat
  allocation : Option Allocation
deriving Repr, DecidableEq

/-- Outcome of a call that either completes or hits a Rust panic. -/
inductive WriteOutcome
  | ok
  | crash
deriving Repr, DecidableEq

/-- `Buffer::write_data`: `self.allocation.as_ref().unwrap().mapped_ptr().unwrap()`
panics when the allocation has been taken or when the memory is not
host-visible (no mapped pointer); otherwise the copy into the mapped pointer
succeeds and the function returns `Ok(())`. -/
def Buffer.write_data (b : Buffer) : WriteOutcome :=
  match b.allocation with
  | none => .crash
  | some a =>
    match a.mapped_ptr with
    | none => .crash
    | some _ => .ok

namespace Device

/-- `Device::create_buffer`: the `vkBuffer` is created with usage
`desc.usage_flags | TRANSFER_SRC | TRANSFER_DST`; the raw handle and the
allocation are produced by the driver and allocator (parameters here). -/
def create_buffer (raw : Nat) (allocation : Allocation) (desc : BufferDescriptor) :
    Buffer where
  raw := raw
  size := desc.size
  usage_flags := desc.usage_flags ||| TRANSFER_SRC ||| TRANSFER_DST
  allocation := some allocation

/-- `Device::schedule_buffer_destruction`: push the `(handle, allocation)`
pair onto the pending-destruction queue; nothing else is touched. -/
def schedule_buffer_destruction (s : DeviceState) (b : Buffer)
    (allocation : Allocation) : DeviceState :=
  { s with pending_destruction_buffers :=
      s.pending_destruction_buffers ++ [{ raw := b.raw, allocation := allocation }] }

end Device

/-- `Device::get_current_command_buffer` (from `command.rs`): acquire a
command buffer from the pool of the current frame slot. -/
def Device.get_current_command_buffer (s : DeviceState) :
    DeviceState × AcquireBufferResult :=
  ({ s with command_buffer_manager :=
      (s.command_buffer_manager.get_command_buffer_at_pool s.frame_counters.current).1 },
   (s.command_buffer_manager.get_command_buffer_at_pool s.frame_counters.current).2)

/-- `impl Drop for Buffer`: take the allocation out of the buffer
(`unwrap` panics, modelled as `none`, if it was already taken) and schedule
the buffer for destruction on the device. -/
def Buffer.drop (b : Buffer) (s : DeviceState) : Option DeviceState :=
  match b.allocation with
  | none => none
  | some allocation => some (Device.schedule_buffer_destruction s b allocation)

/-- `vk::DescriptorSetLayoutBinding`: the binding index and the raw
descriptor type. -/
structure DescriptorSetLayoutBinding where
  binding : Nat
  descriptor_type : Nat
deriving Repr, DecidableEq

/-- The `bindings_map` of `DescriptorSetLayout`: a `HashMap` collected from
the binding list keyed by `binding.binding` (a later duplicate key
overwrites an earlier one, hence the search from the end). -/
def bindings_map (bindings : List DescriptorSetLayoutBinding) (i : Nat) :
    Option DescriptorSetLayoutBinding :=
  bindings.reverse.find? (fun b => b.binding == i)

/-- `DescriptorBindingBufferWrite` from `resource.rs` (the referenced
buffer's handle and size, and the target binding index). -/
structure DescriptorBindingBufferWrite where
  buffer_raw : Nat
  buffer_size : Nat
  binding_index : Nat
deriving Repr, DecidableEq

/-- `DescriptorBindingWrites` from `resource.rs`. -/
structure DescriptorBindingWrites where
  buffers : List DescriptorBindingBufferWrite
deriving Repr, DecidableEq

/-- The fields of a `vk::WriteDescriptorSet` that `update_descriptor_set`
fills in for a buffer write. -/
structure VulkanWriteDescriptor where
  dst_binding : Nat
  descriptor_type : Nat
  buffer_raw : Nat
  range : Nat
deriving Repr, DecidableEq

/-- The validation loop of `Device::update_descriptor_set`: walk the buffer
writes in order; an index missing from the layout's `bindings_map` or a
descriptor type other than uniform/storage buffer aborts with an error;
otherwise accumulate the `vk::WriteDescriptorSet` entries in order. -/
def collect_buffer_writes (layout : List DescriptorSetLayoutBinding) :
    List DescriptorBindingBufferWrite → Except String (List VulkanWriteDescriptor)
  | [] => .ok []
  | w :: rest =>
    match bindings_map layout w.binding_index with
    | some binding =>
      if binding.descriptor_type = UNIFORM_BUFFER ∨
          binding.descriptor_type = STORAGE_BUFFER then
        match collect_buffer_writes layout rest with
        | .ok ws =>
          .ok ({ dst_binding := binding.binding
                 descriptor_type := binding.descriptor_type
                 buffer_raw := w.buffer_raw
                 range := w.buffer_size } :: ws)
        | .error e => .error e
      else
        .error "Cannot handle descriptor type"
    | none => .error "Binding index on descriptor buffer write is invalid!"

/-- GPU-side contents of a descriptor set: for each binding index, the last
write applied to it. -/
structure GpuDescriptorState where
  bindings : List (Nat × VulkanWriteDescriptor)
deriving Repr, DecidableEq

/-- Semantics of one `vk::WriteDescriptorSet`: the write replaces whatever
the binding held. -/
def GpuDescriptorState.write_one (g : GpuDescriptorState)
    (w : VulkanWriteDescriptor) : GpuDescriptorState :=
  { bindings := g.bindings.filter (fun p => p.1 ≠ w.dst_binding) ++ [(w.dst_binding, w)] }

/-- Semantics of `vkUpdateDescriptorSets` on the accumulated writes. -/
def GpuDescriptorState.update (g : GpuDescriptorState)
    (ws : List VulkanWriteDescriptor) : GpuDescriptorState :=
  ws.foldl GpuDescriptorState.write_one g

/-- `Device::update_descriptor_set`: the validation loop runs to completion
over all writes before the single `vkUpdateDescriptorSets` call; any invalid
write returns the error with the GPU state untouched. -/
def Device.update_descriptor_set (layout : List DescriptorSetLayoutBinding)
    (gpu : GpuDescriptorState) (writes : DescriptorBindingWrites) :
    GpuDescriptorState × Except String Unit :=
  match collect_buffer_writes layout writes.buffers with
  | .error e => (gpu, .error e)
  | .ok ws => (gpu.update ws, .ok ())

/-- A buffer write is valid for a layout when its binding index is present in
the layout's map and the declared type is uniform or storage buffer. -/
def valid_buffer_write (layout : List DescriptorSetLayoutBinding)
    (w : DescriptorBindingBufferWrite) : Prop :=
  ∃ b, bindings_map layout w.binding_index = some b ∧
    (b.descriptor_type = UNIFORM_BUFFER ∨ b.descriptor_type = STORAGE_BUFFER)

instance (layout : List DescriptorSetLayoutBinding)
    (w : DescriptorBindingBufferWrite) : Decidable (valid_buffer_write layout w) :=
  match h : bindings_map layout w.binding_index with
  | none => .isFalse (by simp [valid_buffer_write, h])
  | some b =>
    if hty : b.descriptor_type = UNIFORM_BUFFER ∨ b.descriptor_type = STORAGE_BUFFER then
      .isTrue ⟨b, h, hty⟩
    else
      .isFalse (fun hv => by
        obtain ⟨b2, hb2, hty2⟩ := hv
        rw [h] at hb2
        injection hb2 with hb2
        exact hty (by rw [hb2]; exact hty2))

/-! Concrete inputs used by witnesses and counterexamples. -/

/-- A buffer allocated with `MemoryLocation::GpuOnly`: the allocator hands
back an allocation with no CPU-mapped pointer. -/
def gpuOnlyBuffer : Buffer where
  raw := 1
  size := 64
  usage_flags := TRANSFER_SRC ||| TRANSFER_DST
  allocation := some { id := 1, mapped_ptr := none }

/-- A buffer allocated with `MemoryLocation::CpuToGpu`: host-visible, the
allocation carries a mapped pointer. -/
def hostVisibleBuffer : Buffer where
  raw := 2
  size := 64
  usage_flags := TRANSFER_SRC ||| TRANSFER_DST
  allocation := some { id := 2, mapped_ptr := some 4096 }

/-- A buffer record sitting on the pending-destruction queue. -/
def pendingBuffer0 : PendingDestructionBuffer where
  raw := 7
  allocation := { id := 3, mapped_ptr := none }

/-- A fresh device state with one buffer queued for destruction. -/
def statePending0 : DeviceState :=
  { Device.new with pending_destruction_buffers := [pendingBuffer0] }

/-- A device state whose absolute frame counter has passed the first
`MAX_FRAMES` frames (as after five presents). -/
def stateAbsolute5 : DeviceState :=
  { Device.new with frame_counters := { current := 1, previous := 0, absolute := 5 } }

/-- A benign `frame_begin` environment: first acquisition succeeds and is
not suboptimal. -/
def envOk : Device.FrameBeginEnv where
  acquire1 := .ok false
  recreate_ok := true
  acquire2 := .ok false

/-- A `frame_begin` environment where both acquisitions fail and recreation
succeeds. -/
def envBothAcquiresFail : Device.FrameBeginEnv where
  acquire1 := .err
  recreate_ok := true
  acquire2 := .err

/-- A layout with one uniform-buffer binding at index 0. -/
def layoutUniform0 : List DescriptorSetLayoutBinding :=
  [{ binding := 0, descriptor_type := UNIFORM_BUFFER }]

/-- A GPU descriptor state holding one write at binding 0. -/
def gpuState0 : GpuDescriptorState where
  bindings := [(0, { dst_binding := 0, descriptor_type := UNIFORM_BUFFER
                     buffer_raw := 9, range := 16 })]

/-- A write list whose second entry names binding 5, absent from
`layoutUniform0`. -/
def writesBadBinding : DescriptorBindingWrites where
  buffers := [{ buffer_raw := 2, buffer_size := 64, binding_index := 0 },
              { buffer_raw := 3, buffer_size := 64, binding_index := 5 }]

/-- A write list with a single valid write at binding 0. -/
def writesGood : DescriptorBindingWrites where
  buffers := [{ buffer_raw := 2, buffer_size := 64, binding_index := 0 }]

/-! Helper lemmas shared between the claim theorems. -/

/-- The timeline value waited on by `frame_begin` depends only on the frame
counters: a wait happens exactly when `absolute >= MAX_FRAMES`, and then the
value waited on is `absolute - (MAX_FRAMES - 1)`. -/
lemma frame_begin_waited (env : Device.FrameBeginEnv) (s : DeviceState) :
    (Device.frame_begin env s).2.2.waited =
      if MAX_FRAMES ≤ s.frame_counters.absolute then
        some (s.frame_counters.absolute - (MAX_FRAMES - 1))
      else none := by
  rcases env with ⟨a1, rok, a2⟩
  rcases a1 with (_ | _) | _ <;> rcases rok with _ | _ <;> rcases a2 with (_ | _) | _ <;>
    simp [Device.frame_begin, Device.frame_semaphore_graphics_wait_value]

/-- `frame_begin` never changes the frame counters. -/
lemma frame_begin_frame_counters (env : Device.FrameBeginEnv) (s : DeviceState) :
    (Device.frame_begin env s).1.frame_counters = s.frame_counters := by
  rcases env with ⟨a1, rok, a2⟩
  rcases a1 with (_ | _) | _ <;> rcases rok with _ | _ <;> rcases a2 with (_ | _) | _ <;>
    simp [Device.frame_begin]

/-! Claim theorems. -/

/-- C1: the capacity check of `get_command_buffer_at_pool` uses `>` instead
of `>=`.  With 2 pools of 1 buffer each: at pool 0 the second acquisition of
the cycle does not return a capacity error but hands out buffer 1, which
belongs to pool 1, not pool 0; only the third call errors.  At pool 1
(the last pool) the second acquisition panics with an out-of-bounds `Vec`
index instead of returning the capacity error the claim requires. -/
theorem get_command_buffer_quota_off_by_one :
    (((CommandBufferManager.new 2 1).get_command_buffer_at_pool 0).2 =
        .ok 0 ∧ (CommandBufferManager.new 2 1).bufferPool 0 = 0) ∧
    ((((CommandBufferManager.new 2 1).get_command_buffer_at_pool 0).1.get_command_buffer_at_pool
        0).2 = .ok 1 ∧ (CommandBufferManager.new 2 1).bufferPool 1 = 1) ∧
    (((((CommandBufferManager.new 2 1).get_command_buffer_at_pool 0).1.get_command_buffer_at_pool
        0).1.get_command_buffer_at_pool 0).2 = .error) ∧
    (((CommandBufferManager.new 2 1).get_command_buffer_at_pool 1).2 = .ok 1) ∧
    ((((CommandBufferManager.new 2 1).get_command_buffer_at_pool 1).1.get_command_buffer_at_pool
        1).2 = .crash) := by
  decide

/-- C2: `frame_begin` waits on the timeline semaphore exactly when
`absolute >= MAX_FRAMES`, and then for the value
`absolute - (MAX_FRAMES - 1)`; on a freshly constructed device two
consecutive `frame_begin` calls with no submit or present in between perform
no timeline wait (so the second call cannot deadlock on the semaphore). -/
theorem frame_begin_timeline_wait (env env2 : Device.FrameBeginEnv) (s : DeviceState) :
    ((Device.frame_begin env s).2.2.waited = none ↔
        s.frame_counters.absolute < MAX_FRAMES) ∧
    (MAX_FRAMES ≤ s.frame_counters.absolute →
      (Device.frame_begin env s).2.2.waited =
        some (s.frame_counters.absolute - (MAX_FRAMES - 1))) ∧
    (s = Device.new →
      (Device.frame_begin env s).2.2.waited = none ∧
      (Device.frame_begin env2 (Device.frame_begin env s).1).2.2.waited = none) := by
  refine ⟨?_, ?_, ?_⟩
  · rw [frame_begin_waited]
    constructor
    · intro h
      by_contra hlt
      rw [if_pos (Nat.le_of_not_lt hlt)] at h
      exact Option.some_ne_none _ h
    · intro h
      rw [if_neg (Nat.not_le_of_lt h)]
  · intro h
    rw [frame_begin_waited, if_pos h]
  · intro h
    subst h
    constructor
    · rw [frame_begin_waited]
      decide
    · rw [frame_begin_waited, frame_begin_frame_counters]
      decide

/-- C2 witness: on the fresh device neither of two consecutive `frame_begin`
calls waits, and a device whose absolute counter is 5 waits for timeline
value 4. -/
theorem frame_begin_timeline_wait_witness :
    ((Device.frame_begin envOk Device.new).2.2.waited = none ∧
      (Device.frame_begin envOk (Device.frame_begin envOk Device.new).1).2.2.waited = none) ∧
    (Device.frame_begin envOk stateAbsolute5).2.2.waited = some 4 := by
  constructor
  · exact (frame_begin_timeline_wait envOk envOk Device.new).2.2 rfl
  · exact (frame_begin_timeline_wait envOk envOk stateAbsolute5).2.1 (by decide)

/-- C3: every `swapchain_present` call that runs to completion (the present
succeeded, or it failed and the device-idle wait succeeded) advances the
frame counters exactly once — `absolute` by one, `current` cyclically mod
`MAX_FRAMES`, `previous` taking the old `current` — while `frame_begin` and
`queue_submit_commands_graphics` leave the frame counters unchanged. -/
theorem swapchain_present_advances_counters (s : DeviceState)
    (present_ok wait_idle_ok : Bool) (env : Device.FrameBeginEnv)
    (h : present_ok = true ∨ wait_idle_ok = true) :
    ((Device.swapchain_present present_ok wait_idle_ok s).1.frame_counters.absolute =
        s.frame_counters.absolute + 1 ∧
      (Device.swapchain_present present_ok wait_idle_ok s).1.frame_counters.current =
        (s.frame_counters.current + 1) % MAX_FRAMES ∧
      (Device.swapchain_present present_ok wait_idle_ok s).1.frame_counters.previous =
        s.frame_counters.current) ∧
    (Device.frame_begin env s).1.frame_counters = s.frame_counters ∧
    (Device.queue_submit_commands_graphics s).1.frame_counters = s.frame_counters ∧
    (Device.get_current_command_buffer s).1.frame_counters = s.frame_counters ∧
    (∀ (b : Buffer) (a : Allocation),
      (Device.schedule_buffer_destruction s b a).frame_counters = s.frame_counters) := by
  refine ⟨?_, frame_begin_frame_counters env s, rfl, rfl, fun _ _ => rfl⟩
  rcases h with h | h <;> subst h
  · cases wait_idle_ok <;>
      simp [Device.swapchain_present, Device.cleanup_resources, Device.frame_counters_advance]
  · cases present_ok <;>
      simp [Device.swapchain_present, Device.cleanup_resources, Device.frame_counters_advance]

/-- C3 witness: a present (with a failing present call but successful idle
wait) on the fresh device advances the counters to
`current = 1, previous = 0, absolute = 1`. -/
theorem swapchain_present_advances_counters_witness :
    (Device.swapchain_present false true Device.new).1.frame_counters.absolute = 0 + 1 ∧
    (Device.swapchain_present false true Device.new).1.frame_counters.current =
      (0 + 1) % MAX_FRAMES ∧
    (Device.swapchain_present false true Device.new).1.frame_counters.previous = 0 :=
  (swapchain_present_advances_counters Device.new false true envOk (Or.inr rfl)).1

/-- C9: whenever `swapchain_present` returns `Ok` — on the normal path and on
the present-failure path alike — the pending-destruction queue has been
drained completely: it ends empty and every queued record has been handed to
`destroy_buffer`, however recently it was queued. -/
theorem swapchain_present_drains_queue (s : DeviceState) (present_ok wait_idle_ok : Bool)
    (h : (Device.swapchain_present present_ok wait_idle_ok s).2 = Device.CallResult.ok) :
    (Device.swapchain_present present_ok wait_idle_ok s).1.pending_destruction_buffers = [] ∧
    (Device.swapchain_present present_ok wait_idle_ok s).1.destroyed_buffers =
      s.destroyed_buffers ++ s.pending_destruction_buffers := by
  cases present_ok <;> cases wait_idle_ok <;>
    simp_all [Device.swapchain_present, Device.cleanup_resources,
      Device.frame_counters_advance]

/-- C9 witness: presenting on a state with one queued buffer returns `Ok`,
empties the queue and destroys exactly that buffer. -/
theorem swapchain_present_drains_queue_witness :
    (Device.swapchain_present true true statePending0).1.pending_destruction_buffers = [] ∧
    (Device.swapchain_present true true statePending0).1.destroyed_buffers =
      statePending0.destroyed_buffers ++ statePending0.pending_destruction_buffers :=
  swapchain_present_drains_queue statePending0 true true (by decide)

/-- C4 counterexample: `MAX_FRAMES = 2`, yet a buffer sitting on the
pending-destruction queue is physically released (handed to
`destroy_buffer`) by the very first `swapchain_present` after it was queued —
after 1 present, not after the `MAX_FRAMES` presents the claim requires. -/
theorem pending_buffer_released_after_one_present :
    pendingBuffer0 ∈ statePending0.pending_destruction_buffers ∧
    pendingBuffer0 ∈ (Device.swapchain_present true true statePending0).1.destroyed_buffers ∧
    1 < MAX_FRAMES := by
  decide

/-- C4 amended: a queued buffer is physically released at the first
`swapchain_present` that completes after it was queued — the drain is
unconditional, so release happens after one present, not after a full
`MAX_FRAMES`-deep cycle. -/
theorem pending_buffer_released_at_first_present (s : DeviceState)
    (b : PendingDestructionBuffer) (present_ok wait_idle_ok : Bool)
    (hb : b ∈ s.pending_destruction_buffers)
    (h : present_ok = true ∨ wait_idle_ok = true) :
    b ∈ (Device.swapchain_present present_ok wait_idle_ok s).1.destroyed_buffers ∧
    (Device.swapchain_present present_ok wait_idle_ok s).1.pending_destruction_buffers
      = [] := by
  rcases h with h | h <;> subst h
  · cases wait_idle_ok <;>
      simp [Device.swapchain_present, Device.cleanup_resources,
        Device.frame_counters_advance, hb]
  · cases present_ok <;>
      simp [Device.swapchain_present, Device.cleanup_resources,
        Device.frame_counters_advance, hb]

/-- C4 amended witness: the queued buffer of `statePending0` is destroyed by
the very next present. -/
theorem pending_buffer_released_at_first_present_witness :
    pendingBuffer0 ∈ (Device.swapchain_present true true statePending0).1.destroyed_buffers ∧
    (Device.swapchain_present true true statePending0).1.pending_destruction_buffers = [] :=
  pending_buffer_released_at_first_present statePending0 pendingBuffer0 true true
    (by decide) (Or.inl rfl)

/-- C6: in `frame_begin`, a clean first acquisition performs no recreation;
a stale (`suboptimal`) or failed first acquisition triggers exactly one
recreation and at most one retried acquisition, a failure of the retried
acquisition is returned as an error (never swallowed, never a second
recreation or acquisition), and a failure of the recreation itself is also
propagated. -/
theorem frame_begin_recreation_policy (env : Device.FrameBeginEnv) (s : DeviceState) :
    ((Device.frame_begin env s).2.2.recreations ≤ 1 ∧
      (Device.frame_begin env s).2.2.acquisitions ≤ 2) ∧
    (env.acquire1 = .ok false →
      (Device.frame_begin env s).2.2.recreations = 0 ∧
      (Device.frame_begin env s).2.2.acquisitions = 1 ∧
      (Device.frame_begin env s).2.1 = .ok) ∧
    ((env.acquire1 = .ok true ∨ env.acquire1 = .err) →
      (Device.frame_begin env s).2.2.recreations = 1 ∧
      (env.recreate_ok = true →
        (Device.frame_begin env s).2.2.acquisitions = 2 ∧
        (env.acquire2 = .err → (Device.frame_begin env s).2.1 = .error) ∧
        (∀ sub, env.acquire2 = .ok sub → (Device.frame_begin env s).2.1 = .ok)) ∧
      (env.recreate_ok = false →
        (Device.frame_begin env s).2.1 = .error ∧
        (Device.frame_begin env s).2.2.acquisitions = 1)) := by
  rcases env with ⟨a1, rok, a2⟩
  rcases a1 with (_ | _) | _ <;> rcases rok with _ | _ <;> rcases a2 with (_ | _) | _ <;>
    simp [Device.frame_begin]

/-- C6 witness: with both acquisitions failing and recreation succeeding,
`frame_begin` performs exactly one recreation, exactly two acquisitions, and
returns the error. -/
theorem frame_begin_recreation_policy_witness :
    (Device.frame_begin envBothAcquiresFail Device.new).2.2.recreations = 1 ∧
    (Device.frame_begin envBothAcquiresFail Device.new).2.2.acquisitions = 2 ∧
    (Device.frame_begin envBothAcquiresFail Device.new).2.1 = .error := by
  have h := (frame_begin_recreation_policy envBothAcquiresFail Device.new).2.2
    (Or.inr rfl)
  exact ⟨h.1, (h.2.1 rfl).1, (h.2.1 rfl).2.1 rfl⟩

/-- C7: `Buffer::write_data` on a buffer that is not host-visible does not
return an error as the claim (and the function's own documentation) states:
it panics on `mapped_ptr().unwrap()`.  On a host-visible buffer the copy
completes and the call returns `Ok`. -/
theorem write_data_not_host_visible_crashes :
    gpuOnlyBuffer.write_data = WriteOutcome.crash ∧
    hostVisibleBuffer.write_data = WriteOutcome.ok := by
  decide

/-- C8: dropping a `Buffer` only pushes one `(handle, allocation)` record
onto the device's pending-destruction queue; it destroys nothing (the ghost
log of `destroy_buffer` calls is unchanged) and leaves the frame counters and
the command-buffer manager untouched. -/
theorem buffer_drop_only_schedules (s : DeviceState) (b : Buffer) (a : Allocation)
    (h : b.allocation = some a) :
    ∃ s2, Buffer.drop b s = some s2 ∧
      s2.pending_destruction_buffers =
        s.pending_destruction_buffers ++ [{ raw := b.raw, allocation := a }] ∧
      s2.frame_counters = s.frame_counters ∧
      s2.command_buffer_manager = s.command_buffer_manager ∧
      s2.destroyed_buffers = s.destroyed_buffers := by
  refine ⟨Device.schedule_buffer_destruction s b a, ?_, rfl, rfl, rfl, rfl⟩
  simp [Buffer.drop, h]

/-- C8 witness: dropping the host-visible buffer on the fresh device queues
exactly its record and changes nothing else. -/
theorem buffer_drop_only_schedules_witness :
    ∃ s2, Buffer.drop hostVisibleBuffer Device.new = some s2 ∧
      s2.pending_destruction_buffers =
        Device.new.pending_destruction_buffers ++
          [{ raw := hostVisibleBuffer.raw
             allocation := { id := 2, mapped_ptr := some 4096 } }] ∧
      s2.frame_counters = Device.new.frame_counters ∧
      s2.command_buffer_manager = Device.new.command_buffer_manager ∧
      s2.destroyed_buffers = Device.new.destroyed_buffers :=
  buffer_drop_only_schedules Device.new hostVisibleBuffer
    { id := 2, mapped_ptr := some 4096 } rfl

/-- C10: `create_buffer` always ors `TRANSFER_SRC` and `TRANSFER_DST` into
the requested usage flags: the created buffer's usage equals
`requested ||| TRANSFER_SRC ||| TRANSFER_DST`, has both transfer bits set
whatever the caller requested, and keeps every requested bit. -/
theorem create_buffer_transfer_capable (raw : Nat) (allocation : Allocation)
    (desc : BufferDescriptor) :
    (Device.create_buffer raw allocation desc).usage_flags =
      (desc.usage_flags ||| TRANSFER_SRC ||| TRANSFER_DST) ∧
    (Device.create_buffer raw allocation desc).usage_flags.testBit 0 = true ∧
    (Device.create_buffer raw allocation desc).usage_flags.testBit 1 = true ∧
    ∀ i, desc.usage_flags.testBit i = true →
      (Device.create_buffer raw allocation desc).usage_flags.testBit i = true := by
  refine ⟨rfl, ?_, ?_, ?_⟩
  · simp [Device.create_buffer, TRANSFER_SRC, TRANSFER_DST, Nat.testBit_lor]
  · simp only [Device.create_buffer, TRANSFER_SRC, TRANSFER_DST, Nat.testBit_lor]
    have h2 : Nat.testBit 2 1 = true := by decide
    simp [h2]
  · intro i h
    simp [Device.create_buffer, Nat.testBit_lor, h]

/-- C10 witness: a buffer requested with only the vertex-buffer usage bit
(`0x80`) is created with usage `0x80 ||| 1 ||| 2 = 0x83`, transfer-capable in
both directions, with the vertex bit kept. -/
theorem create_buffer_transfer_capable_witness :
    (Device.create_buffer 11 { id := 4, mapped_ptr := none }
        { size := 256, usage_flags := 128, memory_location := .gpuOnly }).usage_flags =
      (128 ||| TRANSFER_SRC ||| TRANSFER_DST) ∧
    (Device.create_buffer 11 { id := 4, mapped_ptr := none }
        { size := 256, usage_flags := 128, memory_location := .gpuOnly }).usage_flags.testBit
      0 = true ∧
    (Device.create_buffer 11 { id := 4, mapped_ptr := none }
        { size := 256, usage_flags := 128, memory_location := .gpuOnly }).usage_flags.testBit
      1 = true ∧
    (Device.create_buffer 11 { id := 4, mapped_ptr := none }
        { size := 256, usage_flags := 128, memory_location := .gpuOnly }).usage_flags.testBit
      7 = true := by
  have h := create_buffer_transfer_capable 11 { id := 4, mapped_ptr := none }
    { size := 256, usage_flags := 128, memory_location := .gpuOnly }
  exact ⟨h.1, h.2.1, h.2.2.1, h.2.2.2 7 (by decide)⟩

/-- If every buffer write in the list is valid for the layout, the validation
loop completes and returns the accumulated vulkan writes. -/
lemma collect_ok_of_valid (layout : List DescriptorSetLayoutBinding) :
    ∀ l : List DescriptorBindingBufferWrite,
      (∀ w ∈ l, valid_buffer_write layout w) →
      ∃ ws, collect_buffer_writes layout l = .ok ws := by
  intro l
  induction l with
  | nil => exact fun _ => ⟨[], rfl⟩
  | cons w rest ih =>
    intro h
    obtain ⟨b, hb, hty⟩ := h w (List.mem_cons_self w rest)
    obtain ⟨ws, hws⟩ := ih (fun x hx => h x (List.mem_cons_of_mem w hx))
    simp only [collect_buffer_writes, hb, hws]
    rw [if_pos hty]
    exact ⟨_, rfl⟩

/-- If the validation loop completes, every buffer write in the list was
valid for the layout. -/
lemma valid_of_collect_ok (layout : List DescriptorSetLayoutBinding) :
    ∀ (l : List DescriptorBindingBufferWrite) (ws : List VulkanWriteDescriptor),
      collect_buffer_writes layout l = .ok ws →
      ∀ w ∈ l, valid_buffer_write layout w := by
  intro l
  induction l with
  | nil =>
    intro ws _ w hw
    simp at hw
  | cons w rest ih =>
    intro ws h x hx
    simp only [collect_buffer_writes] at h
    split at h
    next b hb =>
      split at h
      next hty =>
        split at h
        next ws2 hrest =>
          rcases List.mem_cons.mp hx with rfl | hx2
          · exact ⟨b, hb, hty⟩
          · exact ih ws2 hrest x hx2
        next e hrest => simp at h
      next hty => simp at h
    next hb => simp at h

/-- C5: `update_descriptor_set` is atomic: if any write in the list names a
binding absent from the layout or one whose declared type is neither uniform
nor storage buffer, the whole call returns an error and the GPU-side
descriptor state is left exactly as it was; conversely the GPU update is
issued only when every write in the list validated. -/
theorem update_descriptor_set_atomic (layout : List DescriptorSetLayoutBinding)
    (gpu : GpuDescriptorState) (writes : DescriptorBindingWrites) :
    ((∃ w ∈ writes.buffers, ¬ valid_buffer_write layout w) →
      (Device.update_descriptor_set layout gpu writes).1 = gpu ∧
      ∃ e, (Device.update_descriptor_set layout gpu writes).2 = .error e) ∧
    (∀ u, (Device.update_descriptor_set layout gpu writes).2 = .ok u →
      ∀ w ∈ writes.buffers, valid_buffer_write layout w) := by
  constructor
  · rintro ⟨w, hw, hnv⟩
    cases hcol : collect_buffer_writes layout writes.buffers with
    | ok ws =>
      exact absurd (valid_of_collect_ok layout writes.buffers ws hcol w hw) hnv
    | error e =>
      exact ⟨by simp [Device.update_descriptor_set, hcol],
        ⟨e, by simp [Device.update_descriptor_set, hcol]⟩⟩
  · intro u hu w hw
    cases hcol : collect_buffer_writes layout writes.buffers with
    | ok ws => exact valid_of_collect_ok layout writes.buffers ws hcol w hw
    | error e => simp [Device.update_descriptor_set, hcol] at hu

/-- C5 witness: on a layout with a single uniform binding 0 and a GPU state
holding one binding, a write list containing binding 5 errors out and leaves
the GPU state untouched, while a list whose single write names binding 0 is
valid throughout. -/
theorem update_descriptor_set_atomic_witness :
    ((Device.update_descriptor_set layoutUniform0 gpuState0 writesBadBinding).1 =
        gpuState0 ∧
      ∃ e, (Device.update_descriptor_set layoutUniform0 gpuState0 writesBadBinding).2 =
        .error e) ∧
    (∀ w ∈ writesGood.buffers, valid_buffer_write layoutUniform0 w) :=
  ⟨(update_descriptor_set_atomic layoutUniform0 gpuState0 writesBadBinding).1
      ⟨{ buffer_raw := 3, buffer_size := 64, binding_index := 5 }, by decide, by decide⟩,
    (update_descriptor_set_atomic layoutUniform0 gpuState0 writesGood).2 () rfl⟩

end Chizumu
